import Mathlib

/-!
Shallow embedding of the arxiv-api-rs client library
(`src/search_query.rs`, `src/query.rs`, `src/models.rs`, `src/lib.rs`)
together with theorems settling the specification claims.

Conventions of the embedding:
* Rust `String`/`&str` become Lean `String`; byte-level operations on
  ASCII delimiters coincide with the char-level operations used here.
* `usize` becomes `Nat` (the spec's data model calls these fields
  unsigned integers).
* A `Box<dyn ISearchQuery>` child of a predicate node is either another
  `SearchPredicate` or some foreign implementor (a `SearchTerm`, a
  `SearchRange`, ...); the only capability the algebra ever uses is
  `to_query_string`, so a foreign implementor is embedded as the
  `leaf` constructor holding its query string.
* `OffsetDateTime` values are never inspected by the code under
  verification, so the instant type is a type parameter `I`; the
  external `time`-crate parsing collaborator is a function parameter
  `parse : TimeFormat → String → Except String I`.
* `HashMap<&str, String>` is embedded as an association list built in
  the source's insertion order; its keys are pairwise distinct, so
  `List.lookup` gives exactly the map semantics.
* The transport (`reqwest`) and the feed decoder (`quick_xml`) are
  external collaborators, embedded as function parameters of the fetch
  pipeline; the pipeline additionally reports how many send attempts
  it performed.
-/

namespace ArxivApi

/-! ### String helpers (`search_query.rs` lines 7-13, `Vec::join`) -/

/-- `remove_outside_brackets` from `search_query.rs`: if the string starts
with `(` and ends with `)`, drop the first and last character, else return
the string unchanged. -/
def remove_outside_brackets (s : String) : String :=
  if s.data.head? = some '(' ∧ s.data.getLast? = some ')' then
    String.mk ((s.data.drop 1).dropLast)
  else
    s

/-- Rust's `Vec<String>::join(sep)`: the elements interleaved with the
separator. -/
def joinStrings (sep : String) : List String → String
  | [] => ""
  | [x] => x
  | x :: y :: xs => x ++ sep ++ joinStrings sep (y :: xs)

/-- `bracket_format` from `search_query.rs`: wrap a query in parentheses. -/
def bracket_format (query : String) : String :=
  "(" ++ query ++ ")"

/-! ### The predicate algebra (`search_query.rs` lines 156-228) -/

mutual
/-- A boxed `dyn ISearchQuery` child: either a foreign implementor
(`SearchTerm`, `SearchRange`, ...) embedded by its query string, or a
nested `SearchPredicate`. -/
inductive SearchQuery where
  | leaf (query_string : String) : SearchQuery
  | pred (p : SearchPredicate) : SearchQuery

/-- The `SearchPredicate` enum from `search_query.rs`. -/
inductive SearchPredicate where
  | And (predicates : List SearchQuery) : SearchPredicate
  | Or (predicates : List SearchQuery) : SearchPredicate
  | AndNot (lhs rhs : SearchQuery) : SearchPredicate
  | Bracket (inner : SearchQuery) : SearchPredicate
end

mutual
/-- `to_query_string` of a boxed child. -/
def SearchQuery.to_query_string : SearchQuery → String
  | .leaf s => s
  | .pred p => SearchPredicate.to_query_string p

/-- `SearchPredicate::to_query_string` (`search_query.rs` lines 193-222). -/
def SearchPredicate.to_query_string : SearchPredicate → String
  | .And ps => bracket_format (joinRendered " AND " ps)
  | .Or ps => bracket_format (joinRendered " OR " ps)
  | .AndNot lhs rhs =>
      "(" ++ SearchQuery.to_query_string lhs ++ " ANDNOT " ++
        SearchQuery.to_query_string rhs ++ ")"
  | .Bracket inner => "(" ++ SearchQuery.to_query_string inner ++ ")"

/-- `predicates.iter().map(to_query_string).join(sep)`. -/
def joinRendered (sep : String) : List SearchQuery → String
  | [] => ""
  | [q] => SearchQuery.to_query_string q
  | q :: r :: qs =>
      SearchQuery.to_query_string q ++ sep ++ joinRendered sep (r :: qs)
end

/-- `SearchPredicate::and`. -/
def SearchPredicate.and (lhs rhs : SearchQuery) : SearchPredicate :=
  .And [lhs, rhs]

/-- `SearchPredicate::and_all`. -/
def SearchPredicate.and_all (predicates : List SearchQuery) : SearchPredicate :=
  .And predicates

/-- `SearchPredicate::or`. -/
def SearchPredicate.or (lhs rhs : SearchQuery) : SearchPredicate :=
  .Or [lhs, rhs]

/-- `SearchPredicate::or_all`. -/
def SearchPredicate.or_all (predicates : List SearchQuery) : SearchPredicate :=
  .Or predicates

/-- `SearchPredicate::and_not`. -/
def SearchPredicate.and_not (lhs rhs : SearchQuery) : SearchPredicate :=
  .AndNot lhs rhs

/-- `SearchPredicate::bracket`. -/
def SearchPredicate.bracket (predicate : SearchQuery) : SearchPredicate :=
  .Bracket predicate

/-- `impl Display for SearchPredicate` (`search_query.rs` lines 224-228):
the query string with the outside brackets removed. -/
def SearchPredicate.display (p : SearchPredicate) : String :=
  remove_outside_brackets p.to_query_string

/-! ### Leaf implementors (`search_query.rs` lines 19-154) -/

/-- The `SearchField` enum. -/
inductive SearchField where
  | Title | Author | Abstract | Comment | JournalReference
  | SubjectCategory | ReportNumber | Doi | All

/-- `AsRef<str> for SearchField`. -/
def SearchField.as_ref : SearchField → String
  | .Title => "ti"
  | .Author => "au"
  | .Abstract => "abs"
  | .Comment => "co"
  | .JournalReference => "jr"
  | .SubjectCategory => "cat"
  | .ReportNumber => "rn"
  | .Doi => "doi"
  | .All => "all"

/-- The `RangeField` enum. -/
inductive RangeField where
  | LastUpdatedDate | SubmittedDate

/-- `AsRef<str> for RangeField`. -/
def RangeField.as_ref : RangeField → String
  | .LastUpdatedDate => "lastUpdatedDate"
  | .SubmittedDate => "submittedDate"

/-- The `SearchTerm` struct. -/
structure SearchTerm where
  field : SearchField
  term : String

/-- `SearchTerm::to_query_string`. -/
def SearchTerm.to_query_string (t : SearchTerm) : String :=
  t.field.as_ref ++ ":" ++ t.term

/-- The `SearchRange` struct; `I` stands for `OffsetDateTime`, whose
values the library never inspects. -/
structure SearchRange (I : Type) where
  field : RangeField
  start : I
  stop : I

/-- The format argument handed to the external `OffsetDateTime::parse`
collaborator: `Iso8601::DEFAULT`, `Rfc3339`, `Rfc2822`, or the plain
`[year]-[month]-[day]` format description. -/
inductive TimeFormat where
  | Iso8601Default | Rfc3339 | Rfc2822 | DateYMD

/-- `SearchRange::try_from_iso_8601`: parse both bounds with the strict
ISO 8601 profile, propagating the first parse error. -/
def SearchRange.try_from_iso_8601 {I : Type}
    (parse : TimeFormat → String → Except String I)
    (field : RangeField) (start stop : String) :
    Except String (SearchRange I) :=
  match parse .Iso8601Default start with
  | .error e => .error e
  | .ok s =>
    match parse .Iso8601Default stop with
    | .error e => .error e
    | .ok t => .ok ⟨field, s, t⟩

/-- `SearchRange::try_from_rfc_3339`. -/
def SearchRange.try_from_rfc_3339 {I : Type}
    (parse : TimeFormat → String → Except String I)
    (field : RangeField) (start stop : String) :
    Except String (SearchRange I) :=
  match parse .Rfc3339 start with
  | .error e => .error e
  | .ok s =>
    match parse .Rfc3339 stop with
    | .error e => .error e
    | .ok t => .ok ⟨field, s, t⟩

/-- `SearchRange::try_from_rfc_2822`. -/
def SearchRange.try_from_rfc_2822 {I : Type}
    (parse : TimeFormat → String → Except String I)
    (field : RangeField) (start stop : String) :
    Except String (SearchRange I) :=
  match parse .Rfc2822 start with
  | .error e => .error e
  | .ok s =>
    match parse .Rfc2822 stop with
    | .error e => .error e
    | .ok t => .ok ⟨field, s, t⟩

/-- `SearchRange::try_from_date`: parse both bounds with the plain
`[year]-[month]-[day]` format description. -/
def SearchRange.try_from_date {I : Type}
    (parse : TimeFormat → String → Except String I)
    (field : RangeField) (start stop : String) :
    Except String (SearchRange I) :=
  match parse .DateYMD start with
  | .error e => .error e
  | .ok s =>
    match parse .DateYMD stop with
    | .error e => .error e
    | .ok t => .ok ⟨field, s, t⟩

/-! ### The query descriptor (`query.rs`) -/

/-- The `SortBy` enum. -/
inductive SortBy where
  | Relevance | LastUpdatedDate | SubmittedDate

/-- The `SortOrder` enum. -/
inductive SortOrder where
  | Ascending | Descending

/-- The `ArxivQuery<S>` struct. -/
structure ArxivQuery (S : Type) where
  search_query : Option S
  id_list : List String
  start : Nat
  max_results : Nat
  sort_by : Option SortBy
  sort_order : Option SortOrder

/-- `impl Default for ArxivQuery<S>` (`query.rs` lines 28-39). -/
def ArxivQuery.default (S : Type) : ArxivQuery S :=
  { search_query := none
    id_list := []
    start := 0
    max_results := 10
    sort_by := none
    sort_order := none }

/-- `ArxivQuery::with_search_query`. -/
def ArxivQuery.with_search_query {S : Type} (q : ArxivQuery S) (sq : S) :
    ArxivQuery S :=
  { q with search_query := some sq }

/-- `ArxivQuery::with_id_list`. -/
def ArxivQuery.with_id_list {S : Type} (q : ArxivQuery S) (l : List String) :
    ArxivQuery S :=
  { q with id_list := l }

/-- `ArxivQuery::with_start`. -/
def ArxivQuery.with_start {S : Type} (q : ArxivQuery S) (n : Nat) :
    ArxivQuery S :=
  { q with start := n }

/-- `ArxivQuery::with_max_results`. -/
def ArxivQuery.with_max_results {S : Type} (q : ArxivQuery S) (n : Nat) :
    ArxivQuery S :=
  { q with max_results := n }

/-- `ArxivQuery::with_sort_by`. -/
def ArxivQuery.with_sort_by {S : Type} (q : ArxivQuery S) (sb : SortBy) :
    ArxivQuery S :=
  { q with sort_by := some sb }

/-- `ArxivQuery::next_page_query` (`query.rs` lines 67-70):
`self.start += self.max_results`. -/
def ArxivQuery.next_page_query {S : Type} (q : ArxivQuery S) : ArxivQuery S :=
  { q with start := q.start + q.max_results }

/-- Every descriptor constructible through the public API of `query.rs`:
`Default::default()` followed by any sequence of the builder methods the
source actually defines (lines 41-71). -/
inductive ArxivQuery.Reachable {S : Type} : ArxivQuery S → Prop where
  | dflt : Reachable (ArxivQuery.default S)
  | with_search_query (q : ArxivQuery S) (sq : S) :
      Reachable q → Reachable (q.with_search_query sq)
  | with_id_list (q : ArxivQuery S) (l : List String) :
      Reachable q → Reachable (q.with_id_list l)
  | with_start (q : ArxivQuery S) (n : Nat) :
      Reachable q → Reachable (q.with_start n)
  | with_max_results (q : ArxivQuery S) (n : Nat) :
      Reachable q → Reachable (q.with_max_results n)
  | with_sort_by (q : ArxivQuery S) (sb : SortBy) :
      Reachable q → Reachable (q.with_sort_by sb)
  | next_page_query (q : ArxivQuery S) :
      Reachable q → Reachable q.next_page_query

/-- The `sortBy` wire token (`query.rs` lines 94-98). -/
def sortByToken : SortBy → String
  | .Relevance => "relevance"
  | .LastUpdatedDate => "lastUpdatedDate"
  | .SubmittedDate => "submittedDate"

/-- The `sortOrder` wire token (`query.rs` lines 105-108). -/
def sortOrderToken : SortOrder → String
  | .Ascending => "ascending"
  | .Descending => "descending"

/-- `ArxivQuery::query_map` (`query.rs` lines 77-113), as an association
list in insertion order; the keys are pairwise distinct, so `List.lookup`
realises the `HashMap` semantics. -/
def ArxivQuery.query_map {S : Type} [ToString S] (q : ArxivQuery S) :
    List (String × String) :=
  (match q.search_query with
   | some sq => [("search_query", toString sq)]
   | none => []) ++
  (if q.id_list.isEmpty then [] else [("id_list", joinStrings "," q.id_list)]) ++
  [("start", toString q.start), ("max_results", toString q.max_results)] ++
  (match q.sort_by with
   | some sb => [("sortBy", sortByToken sb)]
   | none => []) ++
  (match q.sort_order with
   | some so => [("sortOrder", sortOrderToken so)]
   | none => [])

/-! ### The wire schema and the domain mapper (`models.rs`) -/

/-- The `Link` struct. -/
structure Link where
  title : Option String
  rel : String
  href : String
  content_type : Option String
  deriving DecidableEq

/-- The `Category` struct. -/
structure Category where
  term : String
  scheme : String

/-- The `Author` struct. -/
structure Author where
  name : String

/-- The `Entry` wire struct; `I` stands for `OffsetDateTime`. -/
structure Entry (I : Type) where
  id : String
  title : String
  summary : String
  updated : I
  published : I
  authors : List Author
  links : List Link
  primary_category : Category
  categories : List Category
  doi : Option String
  comment : Option String
  journal_ref : Option String

/-- The `Feed` struct. -/
structure Feed (I : Type) where
  entries_ : List (Entry I)

/-- `Entry::get_pdf_url` (`models.rs` lines 37-50): the `href` of the
first link whose `title` is `Some("pdf")`. -/
def Entry.get_pdf_url {I : Type} (e : Entry I) : Option String :=
  ((e.links.filter fun l => l.title = some "pdf").head?).map Link.href

/-- The condition under which `Entry::get_pdf_url` emits its
"Multiple pdf links found" warning: the filtered iterator yields a second
element. -/
def Entry.pdf_link_warning {I : Type} (e : Entry I) : Bool :=
  !((e.links.filter fun l => l.title = some "pdf").drop 1).isEmpty

/-- The `ArxivResult` domain record. -/
structure ArxivResult (I : Type) where
  id : String
  title : String
  summary : String
  authors : List String
  doi : Option String
  comment : Option String
  journal_ref : Option String
  primary_category : String
  categories : List String
  pdf_url : Option String
  links : List Link
  published : I
  updated : I

/-- `ArxivResult::from_entry` (`models.rs` lines 101-128). -/
def ArxivResult.from_entry {I : Type} (e : Entry I) : ArxivResult I :=
  { id := e.id
    title := e.title
    summary := e.summary
    authors := e.authors.map Author.name
    doi := e.doi
    comment := e.comment
    journal_ref := e.journal_ref
    primary_category := e.primary_category.term
    categories := e.categories.map Category.term
    pdf_url := e.get_pdf_url
    links := e.links
    published := e.published
    updated := e.updated }

/-! ### The fetch pipeline (`lib.rs` lines 39-77)

The external collaborators are parameters: `toUrl` is the (per-query
constant) outcome of `query.to_url(BASE_URL)`, `send` maps the index of a
send attempt to the transport outcome, a response carries the outcome of
`response.text()`, and `decode` is `quick_xml::de::from_str::<Feed>`.
Alongside the `Result`, the model returns the number of transport send
attempts performed. -/

/-- A successful transport response: the outcome of reading its body. -/
structure HttpResponse where
  text : Except String String

/-- The aggregated error message built after the retry loop
(`lib.rs` lines 66-76). -/
def aggregateErrMsg (n_retries : Nat) (msgs : List String) : String :=
  "Failed to fetch data from Arxiv after " ++ toString n_retries ++
    " retries\n" ++ joinStrings "\n" msgs

/-- The body of a loop iteration after a successful send
(`lib.rs` lines 56-63): read the text, decode the feed, map the entries. -/
def processResponse {I : Type} (decode : String → Except String (Feed I))
    (r : HttpResponse) : Except String (List (ArxivResult I)) :=
  match r.text with
  | .error e => .error e
  | .ok body =>
    match decode body with
    | .error e => .error e
    | .ok feed => .ok (feed.entries_.map ArxivResult.from_entry)

/-- The retry loop of `ArxivClient::search`, by remaining iterations;
`attempts` counts the send attempts already made and `errors` the
transport errors already collected. -/
def searchLoop {I : Type} (toUrl : Except String String)
    (send : Nat → Except String HttpResponse)
    (decode : String → Except String (Feed I)) (n_retries : Nat) :
    Nat → Nat → List String → Except String (List (ArxivResult I)) × Nat
  | 0, attempts, errors => (.error (aggregateErrMsg n_retries errors), attempts)
  | remaining + 1, attempts, errors =>
    match toUrl with
    | .error e => (.error e, attempts)
    | .ok _ =>
      match send attempts with
      | .error e =>
          searchLoop toUrl send decode n_retries remaining (attempts + 1)
            (errors ++ [e])
      | .ok resp => (processResponse decode resp, attempts + 1)

/-- `ArxivClient::search` (`lib.rs` lines 39-77), apart from the external
collaborators and the cooperative sleeps (no time is modelled). -/
def ArxivClient.search {I : Type} (toUrl : Except String String)
    (send : Nat → Except String HttpResponse)
    (decode : String → Except String (Feed I)) (n_retries : Nat) :
    Except String (List (ArxivResult I)) × Nat :=
  searchLoop toUrl send decode n_retries n_retries 0 []

/-! ### Helper lemmas -/

theorem joinRendered_eq (sep : String) :
    ∀ l : List SearchQuery,
      joinRendered sep l = joinStrings sep (l.map SearchQuery.to_query_string)
  | [] => rfl
  | [_] => rfl
  | q :: r :: qs => by
      rw [joinRendered, List.map_cons, List.map_cons, joinStrings,
        ← List.map_cons, joinRendered_eq sep (r :: qs)]

theorem remove_outside_brackets_wrap (t : String) :
    remove_outside_brackets ("(" ++ t ++ ")") = t := by
  have hdata : ("(" ++ t ++ ")").data = '(' :: (t.data ++ [')']) := by
    simp [String.data_append]
  have hc : ('(' :: (t.data ++ [')'])).head? = some '(' ∧
      ('(' :: (t.data ++ [')'])).getLast? = some ')' := by
    refine ⟨rfl, ?_⟩
    rw [← List.cons_append]
    exact List.getLast?_concat _
  unfold remove_outside_brackets
  rw [hdata, if_pos hc]
  show String.mk ((t.data ++ [')']).dropLast) = t
  rw [List.dropLast_concat]

theorem remove_outside_brackets_of_not (s : String)
    (h : ¬(s.data.head? = some '(' ∧ s.data.getLast? = some ')')) :
    remove_outside_brackets s = s := by
  unfold remove_outside_brackets
  rw [if_neg h]

/-- Every composite node's query string is one pair of parentheses around
its joined content. -/
theorem SearchPredicate.to_query_string_wrapped (p : SearchPredicate) :
    ∃ inner, p.to_query_string = "(" ++ inner ++ ")" := by
  cases p with
  | And ps => exact ⟨joinRendered " AND " ps, rfl⟩
  | Or ps => exact ⟨joinRendered " OR " ps, rfl⟩
  | AndNot l r =>
      refine ⟨l.to_query_string ++ " ANDNOT " ++ r.to_query_string, ?_⟩
      simp [SearchPredicate.to_query_string, String.append_assoc]
  | Bracket inner => exact ⟨inner.to_query_string, rfl⟩

theorem SearchPredicate.display_wrap (p : SearchPredicate) (inner : String)
    (h : p.to_query_string = "(" ++ inner ++ ")") : p.display = inner := by
  rw [SearchPredicate.display, h, remove_outside_brackets_wrap]

theorem SearchPredicate.or_to_query_string (l r : SearchQuery) :
    (SearchPredicate.or l r).to_query_string =
      "(" ++ (l.to_query_string ++ " OR " ++ r.to_query_string) ++ ")" := by
  simp [SearchPredicate.or, SearchPredicate.to_query_string, joinRendered,
    bracket_format, String.append_assoc]

theorem SearchPredicate.and_to_query_string (l r : SearchQuery) :
    (SearchPredicate.and l r).to_query_string =
      "(" ++ (l.to_query_string ++ " AND " ++ r.to_query_string) ++ ")" := by
  simp [SearchPredicate.and, SearchPredicate.to_query_string, joinRendered,
    bracket_format, String.append_assoc]

/-! ### Claim theorems -/

/-- C1: `and(P,Q)` renders as `"(" + render(P) + " AND " + render(Q) + ")"`,
`or(P,Q)` as `"(" + render(P) + " OR " + render(Q) + ")"`, `and_not(P,Q)` as
`"(" + render(P) + " ANDNOT " + render(Q) + ")"`; `and_all`/`or_all` of a
non-empty list render as the elements' renderings joined by
`" AND "`/`" OR "` inside one pair of parentheses; and `bracket(P)` renders
as `"(" + render(P) + ")"`, even when `render(P)` is already
parenthesized. -/
theorem C1_predicate_render_shapes (p q : SearchQuery) (l : List SearchQuery) :
    (SearchPredicate.and p q).to_query_string =
      "(" ++ p.to_query_string ++ " AND " ++ q.to_query_string ++ ")" ∧
    (SearchPredicate.or p q).to_query_string =
      "(" ++ p.to_query_string ++ " OR " ++ q.to_query_string ++ ")" ∧
    (SearchPredicate.and_not p q).to_query_string =
      "(" ++ p.to_query_string ++ " ANDNOT " ++ q.to_query_string ++ ")" ∧
    (l ≠ [] →
      (SearchPredicate.and_all l).to_query_string =
        "(" ++ joinStrings " AND " (l.map SearchQuery.to_query_string) ++ ")") ∧
    (l ≠ [] →
      (SearchPredicate.or_all l).to_query_string =
        "(" ++ joinStrings " OR " (l.map SearchQuery.to_query_string) ++ ")") ∧
    (SearchPredicate.bracket p).to_query_string =
      "(" ++ p.to_query_string ++ ")" := by
  refine ⟨?_, ?_, ?_, fun _ => ?_, fun _ => ?_, rfl⟩
  · rw [SearchPredicate.and_to_query_string]
    simp [String.append_assoc]
  · rw [SearchPredicate.or_to_query_string]
    simp [String.append_assoc]
  · simp [SearchPredicate.and_not, SearchPredicate.to_query_string]
  · simp [SearchPredicate.and_all, SearchPredicate.to_query_string,
      bracket_format, joinRendered_eq]
  · simp [SearchPredicate.or_all, SearchPredicate.to_query_string,
      bracket_format, joinRendered_eq]

/-- Witness for C1 at concrete inputs (the repository's own test terms). -/
theorem C1_predicate_render_shapes_witness :
    ([SearchQuery.leaf "ti:RAG", SearchQuery.leaf "au:John Doe"] ≠
        ([] : List SearchQuery)) ∧
    (SearchPredicate.and_all
        [SearchQuery.leaf "ti:RAG", SearchQuery.leaf "au:John Doe"]).to_query_string =
      "(ti:RAG AND au:John Doe)" ∧
    (SearchPredicate.or_all
        [SearchQuery.leaf "ti:RAG", SearchQuery.leaf "au:John Doe"]).to_query_string =
      "(ti:RAG OR au:John Doe)" := by
  have h := C1_predicate_render_shapes (.leaf "ti:RAG") (.leaf "au:John Doe")
    [.leaf "ti:RAG", .leaf "au:John Doe"]
  refine ⟨by simp, ?_, ?_⟩
  · exact (h.2.2.2.1 (by simp)).trans (by rfl)
  · exact (h.2.2.2.2.1 (by simp)).trans (by rfl)

/-- C2: the display string of every predicate node is its query string
with exactly the one outermost pair of enclosing parentheses removed
(the inner content, nested parentheses included, is kept verbatim);
a string not enclosed in such a pair is left unchanged by the stripping
function; and `or(and(A,B), C)` displays as
`"(" + render(A) + " AND " + render(B) + ") OR " + render(C)`. -/
theorem C2_display_strips_outermost :
    (∀ P : SearchPredicate, ∃ inner,
        P.to_query_string = "(" ++ inner ++ ")" ∧ P.display = inner) ∧
    (∀ s : String,
        ¬(s.data.head? = some '(' ∧ s.data.getLast? = some ')') →
        remove_outside_brackets s = s) ∧
    (∀ A B C : SearchQuery,
        (SearchPredicate.or (SearchQuery.pred (SearchPredicate.and A B))
            C).display =
          "(" ++ A.to_query_string ++ " AND " ++ B.to_query_string ++
            ") OR " ++ C.to_query_string) := by
  refine ⟨?_, remove_outside_brackets_of_not, ?_⟩
  · intro P
    obtain ⟨inner, hi⟩ := P.to_query_string_wrapped
    exact ⟨inner, hi, P.display_wrap inner hi⟩
  · intro A B C
    have h := SearchPredicate.display_wrap _ _
      (SearchPredicate.or_to_query_string
        (SearchQuery.pred (SearchPredicate.and A B)) C)
    rw [h]
    show (SearchPredicate.and A B).to_query_string ++ " OR " ++
        C.to_query_string = _
    rw [SearchPredicate.and_to_query_string]
    have hOR : (") OR " : String) = ")" ++ " OR " := rfl
    rw [hOR]
    simp [String.append_assoc]

/-- Witness for C2's stripping-function conjunct at a concrete string. -/
theorem C2_display_strips_outermost_witness :
    remove_outside_brackets "ti:RAG" = "ti:RAG" :=
  C2_display_strips_outermost.2.1 "ti:RAG" (by decide)

/-- C9: `next_page_query` returns a descriptor whose `start` is the old
`start` plus the old `max_results`, with `search_query`, `id_list`,
`max_results`, `sort_by` and `sort_order` unchanged; on `start=0`,
`max_results=10` it yields `start=10`, `max_results=10`. -/
theorem C9_next_page_query (S : Type) (q : ArxivQuery S) :
    q.next_page_query.start = q.start + q.max_results ∧
    q.next_page_query.search_query = q.search_query ∧
    q.next_page_query.id_list = q.id_list ∧
    q.next_page_query.max_results = q.max_results ∧
    q.next_page_query.sort_by = q.sort_by ∧
    q.next_page_query.sort_order = q.sort_order ∧
    (q.start = 0 ∧ q.max_results = 10 →
      q.next_page_query.start = 10 ∧ q.next_page_query.max_results = 10) := by
  refine ⟨rfl, rfl, rfl, rfl, rfl, rfl, ?_⟩
  rintro ⟨h0, h10⟩
  simp [ArxivQuery.next_page_query, h0, h10]

/-- Witness for C9 at the default descriptor (`start=0`,
`max_results=10`). -/
theorem C9_next_page_query_witness :
    ((ArxivQuery.default String).start = 0 ∧
      (ArxivQuery.default String).max_results = 10) ∧
    ((ArxivQuery.default String).next_page_query.start = 10 ∧
      (ArxivQuery.default String).next_page_query.max_results = 10) :=
  ⟨⟨rfl, rfl⟩,
    (C9_next_page_query String (ArxivQuery.default String)).2.2.2.2.2.2
      ⟨rfl, rfl⟩⟩

/-- C5 (the code evaluated against the claim): `query.rs` defines no
`with_sort_order` builder, so every descriptor reachable through the
public API — `Default::default()` followed by any sequence of the
builders the source does define — has `sort_order = none`; no operation
of the code ever sets the sort order. -/
theorem C5_no_sort_order_builder {S : Type} (q : ArxivQuery S)
    (h : q.Reachable) : q.sort_order = none := by
  induction h with
  | dflt => rfl
  | with_search_query q sq _ ih => exact ih
  | with_id_list q l _ ih => exact ih
  | with_start q n _ ih => exact ih
  | with_max_results q n _ ih => exact ih
  | with_sort_by q sb _ ih => exact ih
  | next_page_query q _ ih => exact ih

/-- Witness for C5: even after `with_sort_by`, the sort order is unset. -/
theorem C5_no_sort_order_builder_witness :
    ((ArxivQuery.default String).with_sort_by SortBy.Relevance).sort_order =
      none :=
  C5_no_sort_order_builder _
    (ArxivQuery.Reachable.with_sort_by _ _ ArxivQuery.Reachable.dflt)

/-- C6: the parameter map always holds `start` and `max_results` as
decimal strings; it holds `search_query` exactly when one is set (its
rendered string), `id_list` exactly when the list is non-empty (the ids
joined by commas in order), `sortBy`/`sortOrder` exactly when set, mapped
to the wire tokens; no other key occurs; and the default descriptor's map
is exactly `start ↦ "0"`, `max_results ↦ "10"`. -/
theorem C6_query_map (S : Type) [ToString S] (q : ArxivQuery S) :
    q.query_map.lookup "start" = some (toString q.start) ∧
    q.query_map.lookup "max_results" = some (toString q.max_results) ∧
    q.query_map.lookup "search_query" = q.search_query.map toString ∧
    q.query_map.lookup "id_list" =
      (if q.id_list.isEmpty then none
       else some (joinStrings "," q.id_list)) ∧
    q.query_map.lookup "sortBy" = q.sort_by.map sortByToken ∧
    q.query_map.lookup "sortOrder" = q.sort_order.map sortOrderToken ∧
    (∀ kv ∈ q.query_map,
      kv.1 ∈ ["search_query", "id_list", "start", "max_results",
        "sortBy", "sortOrder"]) ∧
    (ArxivQuery.default S).query_map = [("start", "0"), ("max_results", "10")] := by
  rcases hsq : q.search_query with _ | sq <;>
    rcases hsb : q.sort_by with _ | sb <;>
      rcases hso : q.sort_order with _ | so <;>
        rcases hid : q.id_list with _ | ⟨a, as⟩ <;>
          simp [ArxivQuery.query_map, ArxivQuery.default, hsq, hsb, hso, hid,
            List.lookup] <;>
            exact ⟨rfl, rfl⟩

/-- Witness for C6's key-inventory conjunct at a concrete map entry. -/
theorem C6_query_map_witness :
    ("start", "0") ∈ (ArxivQuery.default String).query_map ∧
    (("start", "0") : String × String).1 ∈
      ["search_query", "id_list", "start", "max_results", "sortBy",
        "sortOrder"] := by
  have hmem : ("start", "0") ∈ (ArxivQuery.default String).query_map := by
    decide
  exact ⟨hmem,
    (C6_query_map String (ArxivQuery.default String)).2.2.2.2.2.2.1 _ hmem⟩

theorem head?_filter_eq_find? {α : Type} (p : α → Bool) :
    ∀ l : List α, (l.filter p).head? = l.find? p
  | [] => rfl
  | a :: as => by
      by_cases h : p a
      · simp [List.filter_cons, h, List.find?_cons_of_pos]
      · simp [List.filter_cons, h, List.find?_cons_of_neg,
          head?_filter_eq_find? p as]

/-- C8: the mapped record's PDF URL is the `href` of the first link whose
title is `"pdf"`; it is absent exactly when no such link exists; with two
or more such links the first one's `href` is still used and the
(non-fatal) ambiguity warning fires exactly then. -/
theorem C8_pdf_url_resolution {I : Type} (e : Entry I) :
    (ArxivResult.from_entry e).pdf_url =
      (e.links.find? fun l => l.title = some "pdf").map Link.href ∧
    ((e.links.find? fun l => l.title = some "pdf") = none →
      (ArxivResult.from_entry e).pdf_url = none) ∧
    (∀ lk, (e.links.find? fun l => l.title = some "pdf") = some lk →
      (ArxivResult.from_entry e).pdf_url = some lk.href) ∧
    (e.pdf_link_warning = true ↔
      2 ≤ (e.links.filter fun l => l.title = some "pdf").length) := by
  have hmain : (ArxivResult.from_entry e).pdf_url =
      (e.links.find? fun l => l.title = some "pdf").map Link.href := by
    simp [ArxivResult.from_entry, Entry.get_pdf_url, head?_filter_eq_find?]
  refine ⟨hmain, ?_, ?_, ?_⟩
  · intro hnone
    rw [hmain, hnone]
    rfl
  · intro lk hlk
    rw [hmain, hlk]
    rfl
  · rw [Entry.pdf_link_warning, Bool.not_eq_true', Bool.eq_false_iff, ne_eq,
      List.isEmpty_iff, List.drop_eq_nil_iff]
    omega

/-- Concrete wire entry carrying two links titled `"pdf"`. -/
def sampleEntryTwoPdf : Entry Unit :=
  { id := "http://arxiv.org/abs/0000.00000v1"
    title := "T"
    summary := "S"
    updated := ()
    published := ()
    authors := []
    links := [⟨some "pdf", "related", "http://arxiv.org/pdf/1", none⟩,
              ⟨some "pdf", "related", "http://arxiv.org/pdf/2", none⟩]
    primary_category := ⟨"cs.AI", "http://arxiv.org/schemas/atom"⟩
    categories := []
    doi := none
    comment := none
    journal_ref := none }

/-- Witness for C8: two links titled `"pdf"` — the first `href` is used
and the ambiguity warning fires. -/
theorem C8_pdf_url_resolution_witness :
    (sampleEntryTwoPdf.links.find? fun l => l.title = some "pdf") =
      some ⟨some "pdf", "related", "http://arxiv.org/pdf/1", none⟩ ∧
    (ArxivResult.from_entry sampleEntryTwoPdf).pdf_url =
      some "http://arxiv.org/pdf/1" ∧
    sampleEntryTwoPdf.pdf_link_warning = true := by
  have hfind : (sampleEntryTwoPdf.links.find? fun l => l.title = some "pdf") =
      some ⟨some "pdf", "related", "http://arxiv.org/pdf/1", none⟩ := by
    decide
  exact ⟨hfind,
    (C8_pdf_url_resolution sampleEntryTwoPdf).2.2.1 _ hfind,
    (C8_pdf_url_resolution sampleEntryTwoPdf).2.2.2.mpr (by decide)⟩

/-! ### Lemmas about the retry loop -/

theorem searchLoop_zero {I : Type} (toUrl : Except String String)
    (send : Nat → Except String HttpResponse)
    (decode : String → Except String (Feed I)) (n a : Nat)
    (errs : List String) :
    searchLoop toUrl send decode n 0 a errs =
      (.error (aggregateErrMsg n errs), a) :=
  rfl

theorem searchLoop_succ {I : Type} (toUrl : Except String String)
    (send : Nat → Except String HttpResponse)
    (decode : String → Except String (Feed I)) (n rem a : Nat)
    (errs : List String) :
    searchLoop toUrl send decode n (rem + 1) a errs =
      match toUrl with
      | .error e => (.error e, a)
      | .ok _ =>
        match send a with
        | .error e =>
            searchLoop toUrl send decode n rem (a + 1) (errs ++ [e])
        | .ok resp => (processResponse decode resp, a + 1) :=
  rfl

theorem searchLoop_attempts_le {I : Type} (toUrl : Except String String)
    (send : Nat → Except String HttpResponse)
    (decode : String → Except String (Feed I)) (n : Nat) :
    ∀ rem a errs,
      (searchLoop toUrl send decode n rem a errs).2 ≤ a + rem
  | 0, a, errs => by simp [searchLoop_zero]
  | rem + 1, a, errs => by
      have ih := fun errs' =>
        searchLoop_attempts_le toUrl send decode n rem (a + 1) errs'
      rw [searchLoop_succ]
      cases toUrl with
      | error e =>
          show a ≤ a + (rem + 1)
          omega
      | ok u =>
        cases hsend : send a with
        | error e =>
            have h2 := ih (errs ++ [e])
            show (searchLoop (Except.ok u) send decode n rem (a + 1)
                (errs ++ [e])).2 ≤ a + (rem + 1)
            omega
        | ok r =>
            show a + 1 ≤ a + (rem + 1)
            omega

theorem searchLoop_first_success {I : Type} (toUrl : Except String String)
    (send : Nat → Except String HttpResponse)
    (decode : String → Except String (Feed I)) (n : Nat) (u : String)
    (hurl : toUrl = .ok u) (es : Nat → String) (k : Nat) (r : HttpResponse)
    (hsend : send k = .ok r) :
    ∀ rem a errs, a ≤ k → k < a + rem →
      (∀ i, a ≤ i → i < k → send i = .error (es i)) →
      searchLoop toUrl send decode n rem a errs =
        (processResponse decode r, k + 1)
  | 0, a, errs, hak, hkr, _ => absurd hkr (by omega)
  | rem + 1, a, errs, hak, hkr, hfail => by
      rw [searchLoop_succ, hurl]
      rcases Nat.eq_or_lt_of_le hak with heq | hlt
      · rw [← heq] at hsend
        rw [hsend, heq]
      · rw [hfail a le_rfl hlt]
        have ih := searchLoop_first_success toUrl send decode n u hurl es k r
          hsend rem (a + 1) (errs ++ [es a]) hlt (by omega)
          (fun i hi hik => hfail i (by omega) hik)
        rw [hurl] at ih
        exact ih

theorem searchLoop_all_fail {I : Type} (toUrl : Except String String)
    (send : Nat → Except String HttpResponse)
    (decode : String → Except String (Feed I)) (n : Nat) (u : String)
    (hurl : toUrl = .ok u) (es : Nat → String) :
    ∀ rem a errs, (∀ i, a ≤ i → i < a + rem → send i = .error (es i)) →
      searchLoop toUrl send decode n rem a errs =
        (.error (aggregateErrMsg n (errs ++ (List.range' a rem).map es)),
          a + rem)
  | 0, a, errs, _ => by simp [searchLoop_zero]
  | rem + 1, a, errs, hfail => by
      have ih := searchLoop_all_fail toUrl send decode n u hurl es rem (a + 1)
        (errs ++ [es a]) (fun i hi hir => hfail i (by omega) (by omega))
      rw [hurl] at ih
      rw [searchLoop_succ, hurl, hfail a le_rfl (by omega)]
      show searchLoop (Except.ok u) send decode n rem (a + 1) (errs ++ [es a]) =
        (.error (aggregateErrMsg n (errs ++ (List.range' a (rem + 1)).map es)),
          a + (rem + 1))
      rw [ih, List.range'_succ, List.map_cons]
      have hlist : errs ++ [es a] ++ ((List.range' (a + 1) rem).map es) =
          errs ++ (es a :: (List.range' (a + 1) rem).map es) := by
        simp
      rw [hlist]
      have harith : a + 1 + rem = a + (rem + 1) := by omega
      rw [harith]

/-- C3: the fetch makes at most `n_retries` send attempts in total; the
first transport success whose body reads and decodes short-circuits the
remaining attempts and returns the decoded records; and when every one of
the `n_retries` attempts fails at the transport level, the result is the
single aggregated error carrying the configured retry count and every
attempt's transport error message joined by newlines. -/
theorem C3_retry_policy {I : Type} (toUrl : Except String String)
    (send : Nat → Except String HttpResponse)
    (decode : String → Except String (Feed I)) (n : Nat) :
    ((ArxivClient.search toUrl send decode n).2 ≤ n) ∧
    (∀ u k r body feed (es : Nat → String),
      toUrl = .ok u → k < n →
      (∀ i, i < k → send i = .error (es i)) →
      send k = .ok r → r.text = .ok body → decode body = .ok feed →
      ArxivClient.search toUrl send decode n =
        (.ok (feed.entries_.map ArxivResult.from_entry), k + 1)) ∧
    (∀ u (es : Nat → String),
      toUrl = .ok u →
      (∀ i, i < n → send i = .error (es i)) →
      ArxivClient.search toUrl send decode n =
        (.error (aggregateErrMsg n ((List.range n).map es)), n)) := by
  refine ⟨?_, ?_, ?_⟩
  · have h := searchLoop_attempts_le toUrl send decode n n 0 []
    simpa [ArxivClient.search] using h
  · intro u k r body feed es hurl hk hfail hsend htext hdec
    have h := searchLoop_first_success toUrl send decode n u hurl es k r hsend
      n 0 [] (by omega) (by omega) (fun i _ hik => hfail i hik)
    rw [ArxivClient.search, h]
    simp [processResponse, htext, hdec]
  · intro u es hurl hfail
    have h := searchLoop_all_fail toUrl send decode n u hurl es n 0 []
      (fun i _ hir => hfail i (by omega))
    rw [ArxivClient.search, h, List.nil_append, ← List.range_eq_range']
    simp

/-- A transport stub failing on the first two attempts and succeeding on
the third with a decodable body. -/
def stubSendTwoFailures : Nat → Except String HttpResponse
  | 0 => .error "send failed 0"
  | 1 => .error "send failed 1"
  | _ => .ok ⟨.ok "<feed></feed>"⟩

/-- A decoder stub accepting `"<feed></feed>"` as the empty feed. -/
def stubDecode : String → Except String (Feed Unit) := fun body =>
  if body = "<feed></feed>" then .ok ⟨[]⟩ else .error "decode failed"

/-- Witness for C3: fail-twice-then-succeed with `n_retries=3` returns the
decoded records after exactly 3 attempts; always-fail with `n_retries=3`
returns the aggregated error enumerating the 3 failure messages. -/
theorem C3_retry_policy_witness :
    ArxivClient.search (.ok "http://export.arxiv.org/api/query")
        stubSendTwoFailures stubDecode 3 = (.ok [], 3) ∧
    ArxivClient.search (I := Unit) (.ok "http://export.arxiv.org/api/query")
        (fun i => .error ("send failed " ++ toString i)) stubDecode 3 =
      (.error
        "Failed to fetch data from Arxiv after 3 retries\nsend failed 0\nsend failed 1\nsend failed 2",
        3) := by
  constructor
  · have h := (C3_retry_policy (.ok "http://export.arxiv.org/api/query")
      stubSendTwoFailures stubDecode 3).2.1
      "http://export.arxiv.org/api/query" 2 ⟨.ok "<feed></feed>"⟩
      "<feed></feed>" ⟨[]⟩ (fun i => "send failed " ++ toString i)
      rfl (by omega) ?_ rfl rfl rfl
    · exact h.trans (by rfl)
    · intro i hi
      match i, hi with
      | 0, _ => rfl
      | 1, _ => rfl
  · have h := (C3_retry_policy (I := Unit)
      (.ok "http://export.arxiv.org/api/query")
      (fun i => .error ("send failed " ++ toString i)) stubDecode 3).2.2
      "http://export.arxiv.org/api/query"
      (fun i => "send failed " ++ toString i) rfl (fun i _ => rfl)
    exact h.trans (by rfl)

/-- C7: once a send succeeds, a body-read failure or a decode failure
aborts the fetch immediately with that error after exactly `k+1` attempts,
no matter how much retry budget remains; only transport-level send
failures are retried. -/
theorem C7_fatal_body_and_decode_failures {I : Type}
    (toUrl : Except String String)
    (send : Nat → Except String HttpResponse)
    (decode : String → Except String (Feed I)) (n : Nat) (u : String)
    (k : Nat) (r : HttpResponse) (es : Nat → String)
    (hurl : toUrl = .ok u) (hk : k < n)
    (hfail : ∀ i, i < k → send i = .error (es i))
    (hsend : send k = .ok r) :
    (∀ e, r.text = .error e →
      ArxivClient.search toUrl send decode n = (.error e, k + 1)) ∧
    (∀ body e, r.text = .ok body → decode body = .error e →
      ArxivClient.search toUrl send decode n = (.error e, k + 1)) := by
  have h := searchLoop_first_success toUrl send decode n u hurl es k r hsend
    n 0 [] (by omega) (by omega) (fun i _ hik => hfail i hik)
  constructor
  · intro e htext
    rw [ArxivClient.search, h]
    simp [processResponse, htext]
  · intro body e htext hdec
    rw [ArxivClient.search, h]
    simp [processResponse, htext, hdec]

/-- Witness for C7: with 5 attempts of budget, a first-attempt body-read
failure and a first-attempt decode failure each abort after exactly one
attempt. -/
theorem C7_fatal_body_and_decode_failures_witness :
    ArxivClient.search (I := Unit) (.ok "http://export.arxiv.org/api/query")
        (fun _ => .ok ⟨.error "body read failed"⟩) stubDecode 5 =
      (.error "body read failed", 1) ∧
    ArxivClient.search (I := Unit) (.ok "http://export.arxiv.org/api/query")
        (fun _ => .ok ⟨.ok "garbage"⟩) stubDecode 5 =
      (.error "decode failed", 1) := by
  constructor
  · exact (C7_fatal_body_and_decode_failures
      (.ok "http://export.arxiv.org/api/query")
      (fun _ => .ok ⟨.error "body read failed"⟩) stubDecode 5
      "http://export.arxiv.org/api/query" 0 ⟨.error "body read failed"⟩
      (fun _ => "") rfl (by omega) (fun i hi => absurd hi (by omega))
      rfl).1 "body read failed" rfl
  · exact (C7_fatal_body_and_decode_failures
      (.ok "http://export.arxiv.org/api/query")
      (fun _ => .ok ⟨.ok "garbage"⟩) stubDecode 5
      "http://export.arxiv.org/api/query" 0 ⟨.ok "garbage"⟩
      (fun _ => "") rfl (by omega) (fun i hi => absurd hi (by omega))
      rfl).2 "garbage" "decode failed" rfl rfl

/-- C10: with `n_retries = 0` the fetch performs no send attempt at all
and returns the aggregated error reporting 0 retries with an empty
newline-joined failure list; it never returns a success. -/
theorem C10_zero_retries_no_attempt {I : Type} (toUrl : Except String String)
    (send : Nat → Except String HttpResponse)
    (decode : String → Except String (Feed I)) :
    ArxivClient.search toUrl send decode 0 =
      (.error "Failed to fetch data from Arxiv after 0 retries\n", 0) :=
  rfl

/-- C4: each `SearchRange` constructor — `try_from_date` for plain
`YYYY-MM-DD` dates, and the ISO 8601 / RFC 3339 / RFC 2822 profile
constructors — returns `Ok` whenever the external datetime parser accepts
both bound strings in the respective format, and the resulting range holds
the two parsed instants as its start and end. -/
theorem C4_search_range_construction {I : Type}
    (parse : TimeFormat → String → Except String I)
    (field : RangeField) (start stop : String) (s t : I) :
    (parse .DateYMD start = .ok s → parse .DateYMD stop = .ok t →
      SearchRange.try_from_date parse field start stop = .ok ⟨field, s, t⟩) ∧
    (parse .Iso8601Default start = .ok s → parse .Iso8601Default stop = .ok t →
      SearchRange.try_from_iso_8601 parse field start stop =
        .ok ⟨field, s, t⟩) ∧
    (parse .Rfc3339 start = .ok s → parse .Rfc3339 stop = .ok t →
      SearchRange.try_from_rfc_3339 parse field start stop =
        .ok ⟨field, s, t⟩) ∧
    (parse .Rfc2822 start = .ok s → parse .Rfc2822 stop = .ok t →
      SearchRange.try_from_rfc_2822 parse field start stop =
        .ok ⟨field, s, t⟩) := by
  refine ⟨fun h1 h2 => ?_, fun h1 h2 => ?_, fun h1 h2 => ?_, fun h1 h2 => ?_⟩
  · rw [SearchRange.try_from_date, h1, h2]
  · rw [SearchRange.try_from_iso_8601, h1, h2]
  · rw [SearchRange.try_from_rfc_3339, h1, h2]
  · rw [SearchRange.try_from_rfc_2822, h1, h2]

/-- Witness for C4 with a parser accepting the well-formed plain dates of
the repository's tests. -/
theorem C4_search_range_construction_witness :
    ((fun (_ : TimeFormat) (s : String) => (.ok s : Except String String))
        TimeFormat.DateYMD "2022-04-12" = .ok "2022-04-12") ∧
    SearchRange.try_from_date (fun _ s => .ok s) RangeField.LastUpdatedDate
        "2022-04-12" "2023-04-13" =
      .ok ⟨RangeField.LastUpdatedDate, "2022-04-12", "2023-04-13"⟩ :=
  ⟨rfl,
    (C4_search_range_construction (fun _ s => .ok s)
      RangeField.LastUpdatedDate "2022-04-12" "2023-04-13"
      "2022-04-12" "2023-04-13").1 rfl rfl⟩

end ArxivApi
